import Mathlib

/-
Verification development for the rgb-keyboard-language color-delivery engine.

The definitions below are a shallow embedding of the Python sources:
  - color_parser.py   (keychron-via-hue): parse_color / rgb_to_hue
  - hue_adjuster.py   (keychron-via-hue): adjust_hue step planning
  - keyboard_hid.py   (rgb-keyboard-language-windows): color_to_hsv,
    KeyboardHID.set_color / get_color wire reports
  - hue_sender.py     (rgb-keyboard-language-windows): HueSender.send_color,
    _send_via_hid, _send_via_subprocess, _do_send_subprocess, _get_backoff_delay
  - main.py           (rgb-keyboard-language-windows): initiate_shutdown and the
    normal-exit cleanup path

Python floats are modelled by exact rationals (Q); Python int() is truncation
toward zero; Python % is floored modulo.  Strings are handled through their
character lists, with str.strip / str.lower modelled character-wise (all the
inputs of interest are ASCII).
-/

/-- Truncation toward zero: the semantics of Python int() applied to a number. -/
def pyInt (q : ℚ) : ℤ := if q < 0 then -⌊-q⌋ else ⌊q⌋

/-- Floored modulo: the semantics of the Python % operator on numbers
(result has the sign of the divisor). -/
def pyMod (x m : ℚ) : ℚ := x - m * ⌊x / m⌋

/-- Errors raised by the hsv branch of parse_color (color_parser.py): the two
distinct RangeError messages, out-of-range versus negative. -/
inductive HsvRangeError
  | out_of_range
  | negative
deriving DecidableEq

/-- Numeric core of the hsv branch of parse_color (color_parser.py, lines 45-67),
applied to the already-parsed numeric value of the string after the hsv: prefix.
Mirrors: if h > 255 then (if h > 360 raise out-of-range; hue_result =
int(h/360*255) % 256; if h == 360 return 0; return hue_result) else
(if h < 0 raise negative; return int(h) % 256). -/
def parse_color_hsv (h : ℚ) : Except HsvRangeError ℕ :=
  if h > 255 then
    if h > 360 then .error .out_of_range
    else if h = 360 then .ok 0
    else .ok ((pyInt (h / 360 * 255)).emod 256).toNat
  else
    if h < 0 then .error .negative
    else .ok ((pyInt h).emod 256).toNat

/-- Round to nearest integer, rounding halves up.  This is the reading of the
word round in the specification sentence for the degree conversion; it is kept
separate from the source translation so the two can be compared. -/
def specRoundNearest (q : ℚ) : ℤ := ⌊q + 1 / 2⌋

/-- Lower-casing of a single ASCII character (Python str.lower on ASCII data). -/
def lower_char (c : Char) : Char :=
  if 'A' ≤ c ∧ c ≤ 'Z' then Char.ofNat (c.toNat + 32) else c

/-- ASCII whitespace recognised by Python str.strip. -/
def is_space (c : Char) : Bool :=
  c = ' ' ∨ c = '\t' ∨ c = '\n' ∨ c = '\r' ∨ c = '\x0b' ∨ c = '\x0c'

/-- Python str.strip: remove leading and trailing whitespace. -/
def py_strip (cs : List Char) : List Char :=
  ((cs.dropWhile is_space).reverse.dropWhile is_space).reverse

/-- The normalisation color.strip().lower() applied at the top of both
parse_color and color_to_hsv. -/
def normalize_color (s : String) : List Char := (py_strip s.data).map lower_char

/-- The fixed table of named colors shared by color_parser.py and
keyboard_hid.py: red 0, yellow 42, green 85, cyan 128, blue 170, purple 213. -/
def NAMED_COLORS : List (List Char × ℕ) :=
  [("red".data, 0), ("yellow".data, 42), ("green".data, 85),
   ("cyan".data, 128), ("blue".data, 170), ("purple".data, 213)]

/-- Dictionary lookup color in NAMED_COLORS. -/
def lookup_named (cs : List Char) : Option ℕ :=
  (NAMED_COLORS.find? (fun p => p.1 == cs)).map (fun p => p.2)

/-- Value of a list of decimal digit characters. -/
def digits_value (ds : List Char) : ℕ :=
  ds.foldl (fun a c => 10 * a + (c.toNat - '0'.toNat)) 0

/-- Unsigned decimal number: digits with an optional single point,
at least one digit overall (the plain-decimal core of Python float()). -/
def parse_decimal (cs : List Char) : Option ℚ :=
  let ip := cs.takeWhile Char.isDigit
  let rest := cs.dropWhile Char.isDigit
  match rest with
  | [] => if ip.isEmpty then none else some (digits_value ip)
  | '.' :: frac =>
      if frac.all Char.isDigit ∧ (ip ≠ [] ∨ frac ≠ []) then
        some ((digits_value ip : ℚ) + (digits_value frac : ℚ) / (10 ^ frac.length))
      else none
  | _ => none

/-- Python float() on the decimal forms used for hue values: optional sign
followed by an unsigned decimal. -/
def parse_float (cs : List Char) : Option ℚ :=
  match cs with
  | '-' :: rest => (parse_decimal rest).map (fun q => -q)
  | '+' :: rest => parse_decimal rest
  | _ => parse_decimal cs

/-- Value of one lowercase hexadecimal digit, none for other characters. -/
def hex_digit_value (c : Char) : Option ℕ :=
  if '0' ≤ c ∧ c ≤ '9' then some (c.toNat - '0'.toNat)
  else if 'a' ≤ c ∧ c ≤ 'f' then some (c.toNat - 'a'.toNat + 10)
  else none

/-- The regular expression match of a hex color against the pattern of an
optional hash sign followed by exactly six lowercase hex digits, returning the
(r, g, b) components. -/
def hex_match (cs : List Char) : Option (ℕ × ℕ × ℕ) :=
  let body := match cs with
    | '#' :: rest => rest
    | l => l
  match body with
  | [c1, c2, c3, c4, c5, c6] =>
    match hex_digit_value c1, hex_digit_value c2, hex_digit_value c3,
          hex_digit_value c4, hex_digit_value c5, hex_digit_value c6 with
    | some h1, some h2, some h3, some h4, some h5, some h6 =>
        some (16 * h1 + h2, 16 * h3 + h4, 16 * h5 + h6)
    | _, _, _, _, _, _ => none
  | _ => none

/-- Conversion of RGB components to the QMK hue unit (keyboard_hid.py,
_rgb_to_hue): normalise to [0,1], take max/min/delta, branch on the maximal
channel, compute degrees, add 360 if negative, convert to the 0..255 unit. -/
def rgb_to_hue (r g b : ℕ) : ℕ :=
  let rn : ℚ := r / 255
  let gn : ℚ := g / 255
  let bn : ℚ := b / 255
  let maxVal := max rn (max gn bn)
  let minVal := min rn (min gn bn)
  let delta := maxVal - minVal
  if delta = 0 then 0
  else
    let hueDegrees :=
      if maxVal = rn then 60 * pyMod ((gn - bn) / delta) 6
      else if maxVal = gn then 60 * ((bn - rn) / delta + 2)
      else 60 * ((rn - gn) / delta + 4)
    let hueDegrees2 := if hueDegrees < 0 then hueDegrees + 360 else hueDegrees
    ((pyInt (hueDegrees2 / 360 * 255)).emod 256).toNat

/-- Failure of color_to_hsv (keyboard_hid.py): the unknown-format ValueError,
or the ValueError propagated out of float() on malformed hsv text. -/
inductive ColorError
  | unknown_format
  | bad_hsv_number
deriving DecidableEq

/-- color_to_hsv (keyboard_hid.py, lines 34-72): strip and lower-case, then try
the named-color table, then the hsv prefix (where a value above 255 is taken as
degrees, 360 itself mapping to 0, with no range errors in this variant), then
the hex pattern; anything else is a ValueError. -/
def color_to_hsv (color : String) : Except ColorError (ℕ × ℕ) :=
  let cs := normalize_color color
  match lookup_named cs with
  | some h => .ok (h, 255)
  | none =>
    match cs with
    | 'h' :: 's' :: 'v' :: ':' :: rest =>
      match parse_float (py_strip rest) with
      | none => .error .bad_hsv_number
      | some h =>
        if h > 255 then
          if h = 360 then .ok (0, 255)
          else .ok (((pyInt (h / 360 * 255)).emod 256).toNat, 255)
        else .ok (((pyInt h).emod 256).toNat, 255)
    | _ =>
      match hex_match cs with
      | some rgb => .ok (rgb_to_hue rgb.1 rgb.2.1 rgb.2.2, 255)
      | none => .error .unknown_format

/-- Direction of a discrete hue step (qmk_hid --rgb-hue-up / --rgb-hue-down). -/
inductive HueDirection
  | up
  | down
deriving DecidableEq

/-- The two circular distances computed by adjust_hue (hue_adjuster.py):
diff_forward = (target - current) % 256 and diff_backward = (current - target) % 256. -/
def hue_diffs (current target : ℕ) : ℕ × ℕ :=
  ((((target : ℤ) - current).emod 256).toNat,
   (((current : ℤ) - target).emod 256).toNat)

/-- Direction and step-count choice of adjust_hue: the forward direction when
diff_forward <= diff_backward, otherwise backward. -/
def hue_plan (current target : ℕ) : HueDirection × ℕ :=
  if (hue_diffs current target).1 ≤ (hue_diffs current target).2 then
    (.up, (hue_diffs current target).1)
  else
    (.down, (hue_diffs current target).2)

/-- The list of device commands issued by adjust_hue: nothing when current
equals target (early return) or when the chosen count is zero, otherwise
steps_needed one-unit commands in the chosen direction. -/
def adjust_hue_commands (current target : ℕ) : List (HueDirection × ℕ) :=
  if current = target then []
  else
    let dn := hue_plan current target
    if dn.2 = 0 then [] else List.replicate dn.2 (dn.1, 1)

/-- VIA report size in bytes (keyboard_hid.py REPORT_SIZE). -/
def REPORT_SIZE : ℕ := 32

/-- VIA opcode SET_VALUE. -/
def VIA_SET_VALUE : ℕ := 7

/-- VIA opcode GET_VALUE. -/
def VIA_GET_VALUE : ℕ := 8

/-- VIA value id for RGB color. -/
def VIA_RGB_COLOR : ℕ := 4

/-- The 32-byte VIA report: bytearray(REPORT_SIZE) zero-initialised, then
bytes 0..4 assigned opcode, channel, value id and the two payload bytes. -/
def build_via_report (opcode channel valueId b3 b4 : ℕ) : List ℕ :=
  (((((List.replicate REPORT_SIZE 0).set 0 opcode).set 1 channel).set 2
      valueId).set 3 b3).set 4 b4

/-- The byte sequence transmitted by KeyboardHID.set_color: a single zero
report-id byte followed by the 32-byte SET_VALUE/COLOR report. -/
def set_color_write (hue saturation channel : ℕ) : List ℕ :=
  0 :: build_via_report VIA_SET_VALUE channel VIA_RGB_COLOR hue saturation

/-- The byte sequence transmitted by KeyboardHID.get_color before reading:
a single zero report-id byte followed by the 32-byte GET_VALUE/COLOR report. -/
def get_color_write (channel : ℕ) : List ℕ :=
  0 :: build_via_report VIA_GET_VALUE channel VIA_RGB_COLOR 0 0

/-- Decoding of the get_color response: bytes 3 and 4 when the response is
non-empty and at least five bytes long, none otherwise. -/
def get_color_response (response : List ℕ) : Option (ℕ × ℕ) :=
  if response ≠ [] ∧ 5 ≤ response.length then some (response.getD 3 0, response.getD 4 0)
  else none

/-- Configuration consumed by HueSender that the embedded paths depend on. -/
structure SenderConfig where
  rate_limit_ms : ℚ
deriving DecidableEq

/-- The mutable state of HueSender: last_color, last_send_time,
consecutive_errors, backoff_until and the single-slot _pending_color mailbox. -/
structure SenderState where
  last_color : Option String
  last_send_time : ℚ
  consecutive_errors : ℕ
  backoff_until : ℚ
  pending_color : Option String
deriving DecidableEq

/-- HueSender state as initialised in HueSender.init. -/
def initial_sender_state : SenderState :=
  { last_color := none, last_send_time := 0, consecutive_errors := 0,
    backoff_until := 0, pending_color := none }

/-- HueSender._get_backoff_delay: zero when there are no consecutive errors,
otherwise the entry of [1, 2, 5, 10] at index min(consecutive_errors - 1, 3). -/
def get_backoff_delay (consecutiveErrors : ℕ) : ℚ :=
  if consecutiveErrors = 0 then 0
  else [(1 : ℚ), 2, 5, 10].getD (min (consecutiveErrors - 1) 3) 0

/-- Behaviour of the direct-HID channel during one send_color call:
whether _hid_available holds with a connected KeyboardHID object, and the
outcomes of the first set_color attempt, of connect() on the retry, and of the
second set_color attempt. -/
structure HidEnv where
  hid_present : Bool
  first_send_ok : Bool
  reconnect_ok : Bool
  second_send_ok : Bool
deriving DecidableEq

/-- Per-request outcome of send_color, one per return path. -/
inductive SendOutcome
  | deduped
  | rate_limited
  | backed_off
  | hid_sent
  | submitted
deriving DecidableEq

/-- Observable channel I/O performed during a send_color call. -/
inductive ChannelAction
  | hid_set_color (hue saturation : ℕ)
  | hid_reconnect
  | submit_subprocess (color : String)
deriving DecidableEq

/-- Result of one send_color call: the returned boolean, the sender state after
the call, which return path was taken, and the channel I/O performed. -/
structure SendResult where
  ret : Bool
  state : SenderState
  outcome : SendOutcome
  actions : List ChannelAction
deriving DecidableEq

/-- HueSender._send_via_hid: color_to_hsv failure is caught and returned as
False before any device write; otherwise the result is that of set_color. -/
def send_via_hid (deviceOk : Bool) (color : String) : Bool :=
  match color_to_hsv color with
  | .error _ => false
  | .ok _ => deviceOk

/-- Device writes performed by one _send_via_hid attempt: none when the color
fails to parse, one set_color report otherwise. -/
def hid_attempt_actions (color : String) : List ChannelAction :=
  match color_to_hsv color with
  | .error _ => []
  | .ok hs => [.hid_set_color hs.1 hs.2]

/-- State update on the synchronous HID success path of send_color:
last_color and last_send_time recorded, error counter and backoff cleared. -/
def hid_success_update (color : String) (t : ℚ) (s : SenderState) : SenderState :=
  { s with last_color := some color, last_send_time := t,
           consecutive_errors := 0, backoff_until := 0 }

/-- State update of _send_via_subprocess: the mailbox takes the new color and
last_color / last_send_time are recorded optimistically at submission time. -/
def submit_update (color : String) (t : ℚ) (s : SenderState) : SenderState :=
  { s with pending_color := some color, last_color := some color,
           last_send_time := t }

/-- HueSender.send_color (hue_sender.py, lines 163-245), evaluated at one call
instant t: the dedup, rate-limit and backoff gates in source order, then the
direct-HID attempt with one connect-and-retry, then the subprocess fallback. -/
def send_color (cfg : SenderConfig) (env : HidEnv) (color : String) (t : ℚ)
    (s : SenderState) : SendResult :=
  if some color = s.last_color then
    { ret := true, state := s, outcome := .deduped, actions := [] }
  else if (t - s.last_send_time) * 1000 < cfg.rate_limit_ms then
    { ret := false, state := s, outcome := .rate_limited, actions := [] }
  else if t < s.backoff_until then
    { ret := false, state := s, outcome := .backed_off, actions := [] }
  else if env.hid_present then
    if send_via_hid env.first_send_ok color then
      { ret := true, state := hid_success_update color t s, outcome := .hid_sent,
        actions := hid_attempt_actions color }
    else if env.reconnect_ok then
      if send_via_hid env.second_send_ok color then
        { ret := true, state := hid_success_update color t s, outcome := .hid_sent,
          actions := hid_attempt_actions color ++ [.hid_reconnect] ++
            hid_attempt_actions color }
      else
        { ret := true, state := submit_update color t s, outcome := .submitted,
          actions := hid_attempt_actions color ++ [.hid_reconnect] ++
            hid_attempt_actions color ++ [.submit_subprocess color] }
    else
      { ret := true, state := submit_update color t s, outcome := .submitted,
        actions := hid_attempt_actions color ++ [.hid_reconnect] ++
          [.submit_subprocess color] }
  else
    { ret := true, state := submit_update color t s, outcome := .submitted,
      actions := [.submit_subprocess color] }

/-- Terminal status of one _do_send_subprocess dispatch: the delegate exited
with a return code (okMarker records whether OK: appeared in its output), the
delegate binary was missing (FileNotFoundError), or an unexpected exception
was raised while dispatching. -/
inductive SubprocessOutcome
  | exited (returncode : ℤ) (okMarker : Bool)
  | tool_missing
  | dispatch_error
deriving DecidableEq

/-- Success branch of _do_send_subprocess (returncode == 0): error counter and
backoff cleared; a missing OK: marker only logs a warning. -/
def subprocess_success_update (s : SenderState) : SenderState :=
  { s with consecutive_errors := 0, backoff_until := 0 }

/-- Failure branch of _do_send_subprocess, shared by the non-zero-exit,
FileNotFoundError and generic-exception handlers: consecutive_errors += 1,
backoff_until = now + _get_backoff_delay(), last_color = None. -/
def subprocess_failure_update (t : ℚ) (s : SenderState) : SenderState :=
  { s with consecutive_errors := s.consecutive_errors + 1,
           backoff_until := t + get_backoff_delay (s.consecutive_errors + 1),
           last_color := none }

/-- Whether a dispatch outcome is handled by the failure branches. -/
def subprocess_is_failure : SubprocessOutcome → Bool
  | .exited rc _ => rc != 0
  | .tool_missing => true
  | .dispatch_error => true

/-- The sender-state commit performed at the end of a _do_send_subprocess run
that passed the stale check, at wall-clock instant t. -/
def subprocess_commit (o : SubprocessOutcome) (t : ℚ) (s : SenderState) : SenderState :=
  if subprocess_is_failure o then subprocess_failure_update t s
  else subprocess_success_update s

/-- Progress of one background _do_send_subprocess execution: before its
mailbox check, running the subprocess after passing the check, or finished. -/
inductive WorkerPhase
  | before_check
  | running
  | finished
deriving DecidableEq

/-- Joint state of one worker execution for a given color: the _pending_color
mailbox, the worker phase, and the shared sender state it may commit to. -/
structure WorkerRun where
  mailbox : Option String
  phase : WorkerPhase
  sender : SenderState
deriving DecidableEq

/-- Interleaved events during a worker execution: another send_color call
overwrites the mailbox with a newer color; the worker performs its stale check
(_do_send_subprocess, lines 249-254); the worker completes and commits its
success or failure result at instant t. -/
inductive WorkerEvent
  | supersede (color : String)
  | check
  | commit (o : SubprocessOutcome) (t : ℚ)

/-- Small-step semantics of one worker execution for color: the check reads
the mailbox once, at the start of the run, and a run that saw a different
color there skips straight to finished; a commit only fires from the running
phase. -/
def worker_step (color : String) (w : WorkerRun) : WorkerEvent → WorkerRun
  | .supersede c => { w with mailbox := some c }
  | .check =>
      if w.phase = .before_check then
        if w.mailbox = some color then { w with phase := .running }
        else { w with phase := .finished }
      else w
  | .commit o t =>
      if w.phase = .running then
        { w with sender := subprocess_commit o t w.sender, phase := .finished }
      else w

/-- A worker execution under a given interleaving of events. -/
def worker_run (color : String) (w : WorkerRun) (evs : List WorkerEvent) : WorkerRun :=
  evs.foldl (worker_step color) w

/-- Sender states reachable from startup through send_color calls and
background-worker commits, at non-negative wall-clock instants. -/
inductive ReachableSender (cfg : SenderConfig) : SenderState → Prop
  | init : ReachableSender cfg initial_sender_state
  | send (env : HidEnv) (color : String) (t : ℚ) (s : SenderState)
      (hs : ReachableSender cfg s) (ht : 0 ≤ t) :
      ReachableSender cfg (send_color cfg env color t s).state
  | worker (o : SubprocessOutcome) (t : ℚ) (s : SenderState)
      (hs : ReachableSender cfg s) (ht : 0 ≤ t) :
      ReachableSender cfg (subprocess_commit o t s)

/-- The shutdown guard of main.py: the _shutdown_initiated flag and a count of
how many times channel teardown has been performed. -/
structure ShutdownBox where
  initiated : Bool
  teardowns : ℕ
deriving DecidableEq

/-- Process state at startup: shutdown not initiated, no teardown performed. -/
def shutdown_box_init : ShutdownBox := { initiated := false, teardowns := 0 }

/-- initiate_shutdown (main.py, lines 235-263): under _shutdown_lock the flag
is tested and set in one atomic critical section; the first caller performs
the teardown, any later caller is a no-op. -/
def initiate_shutdown (b : ShutdownBox) : ShutdownBox :=
  if b.initiated then b
  else { initiated := true, teardowns := b.teardowns + 1 }

/-- The normal-exit cleanup in the finally block of main (main.py, lines
367-373): it reads _shutdown_initiated without holding the lock and, crucially,
performs watcher.stop() and hue_sender.shutdown() without ever setting the
flag. -/
def normal_exit_cleanup (b : ShutdownBox) : ShutdownBox :=
  if b.initiated then b
  else { b with teardowns := b.teardowns + 1 }

/-- Default sender configuration used by concrete witnesses:
rate_limit_ms = 50 as in HueSender.init. -/
def cfgDefault : SenderConfig := { rate_limit_ms := 50 }

/-- Hid environment in which the device is present and every operation
succeeds. -/
def envAllOk : HidEnv :=
  { hid_present := true, first_send_ok := true, reconnect_ok := true,
    second_send_ok := true }

/-- Hid environment in which hidapi is unavailable (subprocess-only mode). -/
def envNoHid : HidEnv :=
  { hid_present := false, first_send_ok := false, reconnect_ok := false,
    second_send_ok := false }

/-- Start of a worker execution for the color a: the mailbox was just set to a
by _send_via_subprocess and the worker has not yet performed its stale check. -/
def worker_cex_start : WorkerRun :=
  { mailbox := some "a", phase := .before_check, sender := initial_sender_state }

/-- The backoff schedule of _get_backoff_delay written out: 1s, 2s, 5s and a
10s ceiling for the first, second, third and any later consecutive error. -/
lemma get_backoff_delay_eq (n : ℕ) :
    get_backoff_delay (n + 1) =
      if n + 1 = 1 then 1 else if n + 1 = 2 then 2 else if n + 1 = 3 then 5 else 10 := by
  rcases n with _ | _ | _ | n <;> simp [get_backoff_delay]

/-- Every backoff delay after at least one consecutive error is at least one
second. -/
lemma get_backoff_delay_ge_one (n : ℕ) : (1 : ℚ) ≤ get_backoff_delay (n + 1) := by
  rw [get_backoff_delay_eq]
  split_ifs <;> norm_num

/-- Case analysis on send_color: the state after a call is either unchanged
(dedup, rate limit, backoff), the synchronous HID success update, or the
subprocess submission update. -/
lemma send_color_state_cases (cfg : SenderConfig) (env : HidEnv) (color : String)
    (t : ℚ) (s : SenderState) :
    (send_color cfg env color t s).state = s ∨
    (send_color cfg env color t s).state = hid_success_update color t s ∨
    (send_color cfg env color t s).state = submit_update color t s := by
  unfold send_color
  split_ifs <;> simp

/-- When the requested color differs from last_color, send_color never takes
the dedup return path. -/
lemma send_color_outcome_not_deduped (cfg : SenderConfig) (env : HidEnv) (color : String)
    (t : ℚ) (s : SenderState) (h : ¬ some color = s.last_color) :
    (send_color cfg env color t s).outcome ≠ .deduped := by
  unfold send_color
  split_ifs <;> simp_all

/-- Reading any position of an all-zero byte list yields zero. -/
lemma getD_replicate_zero (n j : ℕ) : (List.replicate n (0 : ℕ)).getD j 0 = 0 := by
  induction n generalizing j with
  | zero => simp [List.getD]
  | succ n ih =>
      cases j with
      | zero => simp [List.replicate]
      | succ j => exact ih j

/-- The VIA report as an explicit byte list: the five assigned header/payload
bytes followed by twenty-seven zeros. -/
lemma build_via_report_eq (op ch v b3 b4 : ℕ) :
    build_via_report op ch v b3 b4 = op :: ch :: v :: b3 :: b4 :: List.replicate 27 0 := rfl

/-- Pure red has QMK hue zero under the standard conversion. -/
lemma rgb_to_hue_red : rgb_to_hue 255 0 0 = 0 := by
  simp only [rgb_to_hue, pyMod, pyInt]
  norm_num [max_def, min_def]

/-- The string zzz matches no color format. -/
lemma color_to_hsv_zzz : color_to_hsv "zzz" = .error .unknown_format := rfl

/-- A worker run that has reached the finished phase never changes the sender
state again, whatever events follow. -/
lemma worker_finished_frozen (color : String) (evs : List WorkerEvent) (w : WorkerRun)
    (h : w.phase = .finished) :
    (worker_run color w evs).sender = w.sender ∧
    (worker_run color w evs).phase = .finished := by
  induction evs generalizing w with
  | nil => exact ⟨rfl, h⟩
  | cons e evs ih =>
      cases e with
      | supersede c =>
          have hstep : worker_step color w (.supersede c) = { w with mailbox := some c } := rfl
          rw [worker_run, List.foldl_cons, hstep]
          exact ih { w with mailbox := some c } h
      | check =>
          have hstep : worker_step color w .check = w := by
            simp [worker_step, h]
          rw [worker_run, List.foldl_cons, hstep]
          exact ih w h
      | commit o t =>
          have hstep : worker_step color w (.commit o t) = w := by
            simp [worker_step, h]
          rw [worker_run, List.foldl_cons, hstep]
          exact ih w h

/-- Claim C1: after every failed subprocess send (non-zero delegate exit,
missing external tool, or unexpected dispatch error), the sender increments
consecutive_errors by one, sets backoff_until to now plus the schedule
1s/2s/5s/10s for the new error count 1/2/3/4-and-above (ceiling 10s), and
clears last_color, so that a following send of the same color cannot take the
dedup path. -/
theorem subprocess_failure_effects (o : SubprocessOutcome) (t : ℚ) (s : SenderState)
    (hfail : subprocess_is_failure o = true) :
    (subprocess_commit o t s).consecutive_errors = s.consecutive_errors + 1 ∧
    (subprocess_commit o t s).backoff_until =
      t + (if s.consecutive_errors + 1 = 1 then 1
           else if s.consecutive_errors + 1 = 2 then 2
           else if s.consecutive_errors + 1 = 3 then 5 else 10) ∧
    (subprocess_commit o t s).last_color = none ∧
    (∀ cfg env c t2, (send_color cfg env c t2 (subprocess_commit o t s)).outcome ≠ .deduped) := by
  have hc : subprocess_commit o t s = subprocess_failure_update t s := by
    simp [subprocess_commit, hfail]
  refine ⟨by simp [hc, subprocess_failure_update], ?_,
    by simp [hc, subprocess_failure_update], ?_⟩
  · rw [hc]
    simp [subprocess_failure_update, get_backoff_delay_eq]
  · intro cfg env c t2
    apply send_color_outcome_not_deduped
    simp [hc, subprocess_failure_update]

/-- Witness for C1 at a concrete failure: a missing delegate tool at time 0
takes the error counter from 0 to 1 and clears last_color. -/
theorem subprocess_failure_effects_witness :
    (subprocess_commit .tool_missing 0 initial_sender_state).consecutive_errors = 1 ∧
    (subprocess_commit .tool_missing 0 initial_sender_state).last_color = none :=
  ⟨(subprocess_failure_effects .tool_missing 0 initial_sender_state rfl).1,
   (subprocess_failure_effects .tool_missing 0 initial_sender_state rfl).2.2.1⟩

/-- Claim C2: whenever the requested color equals last_color, send_color
returns success with the state unchanged and no channel I/O, whatever the call
instant: the dedup gate is evaluated before the rate-limit and backoff gates,
so the short-circuit applies even inside the rate-limit window or before
backoff_until has elapsed. -/
theorem send_color_dedup (cfg : SenderConfig) (env : HidEnv) (color : String)
    (t : ℚ) (s : SenderState) (h : s.last_color = some color) :
    send_color cfg env color t s =
      { ret := true, state := s, outcome := .deduped, actions := [] } := by
  simp [send_color, h]

/-- Witness for C2 at a concrete input that is simultaneously inside the
rate-limit window and before backoff_until: the dedup short-circuit still
wins. -/
theorem send_color_dedup_witness :
    ((5 : ℚ) - 5) * 1000 < 50 ∧ (5 : ℚ) < 10 ∧
    send_color cfgDefault envAllOk "red" 5
      { last_color := some "red", last_send_time := 5, consecutive_errors := 1,
        backoff_until := 10, pending_color := none } =
      { ret := true,
        state := { last_color := some "red", last_send_time := 5,
                   consecutive_errors := 1, backoff_until := 10, pending_color := none },
        outcome := .deduped, actions := [] } :=
  ⟨by norm_num, by norm_num, send_color_dedup cfgDefault envAllOk "red" 5 _ rfl⟩

/-- Counterexample to C3 as stated: a dispatch for the color a passes its
mailbox check, is then superseded by the newer color b, and its failing
completion still commits to sender state (consecutive_errors becomes 1) —
supersession before completion does not protect sender state, because the
code consults the mailbox at the start of the run, not on completion. -/
theorem worker_stale_commit_cex :
    (worker_run "a" worker_cex_start [.check]).phase = .running ∧
    (worker_run "a" worker_cex_start [.check, .supersede "b"]).mailbox = some "b" ∧
    ("b" : String) ≠ "a" ∧
    (worker_run "a" worker_cex_start
        [.check, .supersede "b", .commit (.exited 1 false) 10]).sender ≠
      worker_cex_start.sender ∧
    (worker_run "a" worker_cex_start
        [.check, .supersede "b", .commit (.exited 1 false) 10]).sender.consecutive_errors
      = 1 := by
  have key : worker_run "a" worker_cex_start
      [.check, .supersede "b", .commit (.exited 1 false) 10] =
      { mailbox := some "b", phase := .finished,
        sender := subprocess_failure_update 10 initial_sender_state } := by
    simp [worker_run, worker_step, worker_cex_start, subprocess_commit, subprocess_is_failure]
  refine ⟨rfl, rfl, by decide, ?_, ?_⟩
  · rw [key]
    intro hcontra
    have hc2 := congrArg SenderState.consecutive_errors hcontra
    simp [subprocess_failure_update, worker_cex_start, initial_sender_state] at hc2
  · rw [key]
    simp [subprocess_failure_update, initial_sender_state]

/-- Claim C3 (amended): the worker consults the single-slot mailbox once, at
the start of its run; a dispatch whose color is no longer the latest at that
moment commits nothing — whatever happens afterwards, the sender state is
untouched by that worker. -/
theorem worker_superseded_before_check (color : String) (w : WorkerRun)
    (evs : List WorkerEvent) (hp : w.phase = .before_check)
    (hm : w.mailbox ≠ some color) :
    (worker_run color w (.check :: evs)).sender = w.sender := by
  have hstep : worker_step color w .check = { w with phase := .finished } := by
    simp [worker_step, hp, hm]
  rw [worker_run, List.foldl_cons, hstep]
  exact (worker_finished_frozen color evs { w with phase := .finished } rfl).1

/-- Witness for amended C3: a worker for the color a that finds b in the
mailbox at its check leaves the sender state untouched even though a failing
completion event follows. -/
theorem worker_superseded_before_check_witness :
    (worker_run "a"
      { mailbox := some "b", phase := .before_check, sender := initial_sender_state }
      [.check, .commit (.exited 1 false) 5]).sender = initial_sender_state :=
  worker_superseded_before_check "a"
    { mailbox := some "b", phase := .before_check, sender := initial_sender_state }
    [.commit (.exited 1 false) 5] rfl (by decide)

/-- Counterexample to C4 as stated: at H = 258 the exact value of H/360*255
is 182.75; the code truncates to 182 while the round-to-nearest conversion
demanded by the claim yields 183. -/
theorem parse_color_hsv_round_cex :
    parse_color_hsv 258 = .ok 182 ∧
    ((specRoundNearest ((258 : ℚ) / 360 * 255)).emod 256).toNat = 183 := by
  constructor
  · simp only [parse_color_hsv, pyInt]
    norm_num
    decide
  · simp only [specRoundNearest]
    norm_num
    decide

/-- Claim C4 (amended): for every numeric H, parsing hsv:H behaves as: if
0 <= H <= 255 the result is int(H) mod 256; if 255 < H <= 360 the result is
int(H/360*255) mod 256 — truncation toward zero, not round-to-nearest — with
H = 360 mapped exactly to 0; every H > 360 fails with the out-of-range
RangeError and every H < 0 fails with the distinct negative RangeError. -/
theorem parse_color_hsv_cases (h : ℚ) :
    (360 < h → parse_color_hsv h = .error .out_of_range) ∧
    (255 < h → h ≤ 360 →
      parse_color_hsv h =
        .ok (if h = 360 then 0 else ((pyInt (h / 360 * 255)).emod 256).toNat)) ∧
    (0 ≤ h → h ≤ 255 → parse_color_hsv h = .ok ((pyInt h).emod 256).toNat) ∧
    (h < 0 → parse_color_hsv h = .error .negative) := by
  refine ⟨?_, ?_, ?_, ?_⟩
  · intro h1
    simp only [parse_color_hsv]
    rw [if_pos (by linarith : h > 255), if_pos h1]
  · intro h1 h2
    simp only [parse_color_hsv]
    rw [if_pos h1, if_neg (by linarith : ¬ h > 360)]
    by_cases h360 : h = 360
    · rw [if_pos h360, if_pos h360]
    · rw [if_neg h360, if_neg h360]
  · intro h0 h255
    simp only [parse_color_hsv]
    rw [if_neg (by linarith : ¬ h > 255), if_neg (by linarith : ¬ h < 0)]
  · intro hneg
    simp only [parse_color_hsv]
    rw [if_neg (by linarith : ¬ h > 255), if_pos hneg]

/-- Witness for amended C4 at concrete inputs: 400 is rejected as out of range
and -10 is rejected with the distinct negative error. -/
theorem parse_color_hsv_cases_witness :
    parse_color_hsv 400 = .error .out_of_range ∧
    parse_color_hsv (-10) = .error .negative :=
  ⟨(parse_color_hsv_cases 400).1 (by norm_num),
   (parse_color_hsv_cases (-10)).2.2.2 (by norm_num)⟩

/-- Claim C5: the step planner computes the two circular differences modulo
256, chooses the direction of smaller magnitude with ties favouring forward,
and issues no device commands when the chosen count is zero; in particular
plan(250,10) is 16 forward steps, plan(10,250) is 16 backward steps, and equal
current and target issue nothing. -/
theorem hue_plan_shortest (current target : ℕ)
    (hc : current < 256) (ht : target < 256) :
    ((hue_plan current target).1 = .up ↔
        (hue_diffs current target).1 ≤ (hue_diffs current target).2) ∧
    (hue_plan current target).2 =
      min (hue_diffs current target).1 (hue_diffs current target).2 ∧
    ((hue_plan current target).2 = 0 → adjust_hue_commands current target = []) ∧
    hue_plan 250 10 = (.up, 16) ∧
    hue_plan 10 250 = (.down, 16) ∧
    adjust_hue_commands current current = [] := by
  refine ⟨?_, ?_, ?_, by decide, by decide, by simp [adjust_hue_commands]⟩
  · unfold hue_plan
    split_ifs with hcase <;> simp [hcase]
  · unfold hue_plan
    split_ifs with hcase <;> simp [Nat.min_def, hcase]
  · intro h0
    by_cases heq : current = target
    · simp [adjust_hue_commands, heq]
    · simp [adjust_hue_commands, heq, h0]

/-- Witness for C5 at concrete hues: the wrap-around forward plan from 250 to
10 and the empty command list at 128 to 128. -/
theorem hue_plan_shortest_witness :
    hue_plan 250 10 = (.up, 16) ∧ adjust_hue_commands 128 128 = [] :=
  ⟨(hue_plan_shortest 250 10 (by norm_num) (by norm_num)).2.2.2.1,
   (hue_plan_shortest 128 128 (by norm_num) (by norm_num)).2.2.2.2.2⟩

/-- Counterexample to C6 as stated: the unparsable color zzz is not surfaced
synchronously — with the HID device present it falls through the failed HID
attempts into the asynchronous subprocess fallback (send_color returns True
and submits), and the delegate failure that follows does increment
consecutive_errors. -/
theorem unparsable_color_reaches_fallback_cex :
    color_to_hsv "zzz" = .error .unknown_format ∧
    (send_color cfgDefault envAllOk "zzz" 1 initial_sender_state).outcome = .submitted ∧
    (send_color cfgDefault envAllOk "zzz" 1 initial_sender_state).ret = true ∧
    (send_color cfgDefault envAllOk "zzz" 1 initial_sender_state).actions =
      [.hid_reconnect, .submit_subprocess "zzz"] ∧
    (subprocess_commit (.exited 1 false) 1
        (send_color cfgDefault envAllOk "zzz" 1 initial_sender_state).state).consecutive_errors
      = 1 := by
  have key : send_color cfgDefault envAllOk "zzz" 1 initial_sender_state =
      { ret := true, state := submit_update "zzz" 1 initial_sender_state,
        outcome := .submitted,
        actions := [.hid_reconnect, .submit_subprocess "zzz"] } := by
    simp only [send_color, send_via_hid, hid_attempt_actions, envAllOk, color_to_hsv_zzz,
      initial_sender_state, cfgDefault]
    norm_num
    intro hcontra
    exact absurd hcontra (by decide)
  refine ⟨rfl, by rw [key], by rw [key], by rw [key], ?_⟩
  rw [key]
  simp [subprocess_commit, subprocess_is_failure, subprocess_failure_update, submit_update,
    initial_sender_state]

/-- Claim C6 (amended): an unparsable color is never rejected synchronously by
send_color: whenever the dedup, rate-limit and backoff gates pass, the HID
attempt fails locally on the parse error and the request is submitted to the
asynchronous subprocess fallback with a True return — the parse failure is
absorbed by the fallback path rather than surfaced to the caller. -/
theorem unparsable_color_submitted (cfg : SenderConfig) (env : HidEnv)
    (color : String) (t : ℚ) (s : SenderState) (e : ColorError)
    (hparse : color_to_hsv color = .error e)
    (hdedup : s.last_color ≠ some color)
    (hrate : ¬ (t - s.last_send_time) * 1000 < cfg.rate_limit_ms)
    (hback : ¬ t < s.backoff_until) :
    (send_color cfg env color t s).outcome = .submitted ∧
    (send_color cfg env color t s).ret = true ∧
    (send_color cfg env color t s).state = submit_update color t s ∧
    (ChannelAction.submit_subprocess color) ∈ (send_color cfg env color t s).actions := by
  have hd : ¬ some color = s.last_color := fun hcontra => hdedup hcontra.symm
  have hv1 : send_via_hid env.first_send_ok color = false := by
    simp [send_via_hid, hparse]
  have hv2 : send_via_hid env.second_send_ok color = false := by
    simp [send_via_hid, hparse]
  have ha : hid_attempt_actions color = [] := by
    simp [hid_attempt_actions, hparse]
  cases hp : env.hid_present <;> cases hr : env.reconnect_ok <;>
    simp [send_color, hd, hrate, hback, hp, hr, hv1, hv2, ha]

/-- Witness for amended C6: in subprocess-only mode the unparsable color zzz
is submitted to the fallback and send_color returns True. -/
theorem unparsable_color_submitted_witness :
    (send_color cfgDefault envNoHid "zzz" 1 initial_sender_state).outcome = .submitted ∧
    (send_color cfgDefault envNoHid "zzz" 1 initial_sender_state).ret = true :=
  ⟨(unparsable_color_submitted cfgDefault envNoHid "zzz" 1 initial_sender_state
      .unknown_format color_to_hsv_zzz (by decide)
      (by norm_num [initial_sender_state, cfgDefault]) (by norm_num [initial_sender_state])).1,
   (unparsable_color_submitted cfgDefault envNoHid "zzz" 1 initial_sender_state
      .unknown_format color_to_hsv_zzz (by decide)
      (by norm_num [initial_sender_state, cfgDefault]) (by norm_num [initial_sender_state])).2.1⟩

/-- Claim C7: for every hue, saturation and channel index in byte range,
set_color transmits exactly 33 bytes — one zero report-id byte followed by a
32-byte report with opcode 0x07 at offset 0, the channel at offset 1, the
COLOR value id 4 at offset 2, hue at offset 3, saturation at offset 4 and
zeros everywhere above — while get_color transmits the same layout with
opcode 0x08 and zero payload, and decodes its response at offsets 3 and 4. -/
theorem via_report_layout (hue saturation channel : ℕ)
    (hh : hue < 256) (hs : saturation < 256) (hc : channel < 256) :
    (set_color_write hue saturation channel).length = 33 ∧
    (set_color_write hue saturation channel).getD 0 99 = 0 ∧
    (build_via_report VIA_SET_VALUE channel VIA_RGB_COLOR hue saturation).getD 0 99 = 7 ∧
    (build_via_report VIA_SET_VALUE channel VIA_RGB_COLOR hue saturation).getD 1 99 = channel ∧
    (build_via_report VIA_SET_VALUE channel VIA_RGB_COLOR hue saturation).getD 2 99 = 4 ∧
    (build_via_report VIA_SET_VALUE channel VIA_RGB_COLOR hue saturation).getD 3 99 = hue ∧
    (build_via_report VIA_SET_VALUE channel VIA_RGB_COLOR hue saturation).getD 4 99
      = saturation ∧
    (∀ i, 5 ≤ i →
      (build_via_report VIA_SET_VALUE channel VIA_RGB_COLOR hue saturation).getD i 0 = 0) ∧
    (get_color_write channel).length = 33 ∧
    (get_color_write channel).getD 0 99 = 0 ∧
    (build_via_report VIA_GET_VALUE channel VIA_RGB_COLOR 0 0).getD 0 99 = 8 ∧
    (build_via_report VIA_GET_VALUE channel VIA_RGB_COLOR 0 0).getD 1 99 = channel ∧
    (build_via_report VIA_GET_VALUE channel VIA_RGB_COLOR 0 0).getD 2 99 = 4 ∧
    (∀ i, 3 ≤ i → (build_via_report VIA_GET_VALUE channel VIA_RGB_COLOR 0 0).getD i 0 = 0) ∧
    (∀ response, 5 ≤ response.length →
      get_color_response response = some (response.getD 3 0, response.getD 4 0)) := by
  refine ⟨?_, rfl, rfl, rfl, rfl, rfl, rfl, ?_, ?_, rfl, rfl, rfl, rfl, ?_, ?_⟩
  · simp [set_color_write, build_via_report_eq]
  · intro i hi
    obtain ⟨j, rfl⟩ : ∃ j, i = j + 5 := ⟨i - 5, by omega⟩
    exact getD_replicate_zero 27 j
  · simp [get_color_write, build_via_report_eq]
  · intro i hi
    obtain ⟨j, rfl⟩ : ∃ j, i = j + 3 := ⟨i - 3, by omega⟩
    cases j with
    | zero => rfl
    | succ j =>
        cases j with
        | zero => rfl
        | succ j => exact getD_replicate_zero 27 j
  · intro response h5
    have hne : response ≠ [] := by
      intro hempty
      rw [hempty] at h5
      simp at h5
    simp [get_color_response, hne, h5]

/-- Witness for C7 at concrete bytes: the blue set report is 33 bytes long and
a concrete 5-byte response decodes to its bytes 3 and 4. -/
theorem via_report_layout_witness :
    (set_color_write 170 255 0).length = 33 ∧
    get_color_response [9, 9, 9, 7, 5] = some (7, 5) :=
  ⟨(via_report_layout 170 255 0 (by norm_num) (by norm_num) (by norm_num)).1,
   (via_report_layout 170 255 0 (by norm_num) (by norm_num) (by norm_num)).2.2.2.2.2.2.2.2.2.2.2.2.2.2
      [9, 9, 9, 7, 5] (by norm_num)⟩

/-- Counterexample to C8 as stated: after the reachable single failure at
instant 100 the backoff deadline is 101, so at the later wall-clock instant
200 backoff_until lies in the past while consecutive_errors is still nonzero —
the claimed equivalence does not hold at every later instant. -/
theorem sender_invariant_wallclock_cex :
    ReachableSender cfgDefault
      (subprocess_commit (.exited 1 false) 100 initial_sender_state) ∧
    (subprocess_commit (.exited 1 false) 100 initial_sender_state).consecutive_errors ≠ 0 ∧
    (subprocess_commit (.exited 1 false) 100 initial_sender_state).backoff_until < 200 := by
  refine ⟨ReachableSender.worker _ 100 _ ReachableSender.init (by norm_num), ?_, ?_⟩
  · simp [subprocess_commit, subprocess_is_failure, subprocess_failure_update]
  · simp [subprocess_commit, subprocess_is_failure, subprocess_failure_update,
      initial_sender_state, get_backoff_delay]
    norm_num

/-- Claim C8 (amended): in every reachable sender state — initially and after
any interleaving of send_color calls and background-worker commits at
non-negative instants — consecutive_errors is zero exactly when backoff_until
is unset (zero). -/
theorem sender_error_backoff_invariant (cfg : SenderConfig) (s : SenderState)
    (hreach : ReachableSender cfg s) :
    s.consecutive_errors = 0 ↔ s.backoff_until = 0 := by
  induction hreach with
  | init => simp [initial_sender_state]
  | send env color t s2 hs ht ih =>
      rcases send_color_state_cases cfg env color t s2 with h | h | h <;> rw [h]
      · exact ih
      · simp [hid_success_update]
      · simpa [submit_update] using ih
  | worker o t s2 hs ht ih =>
      unfold subprocess_commit
      split_ifs
      · have h1 : (1 : ℚ) ≤ get_backoff_delay (s2.consecutive_errors + 1) :=
          get_backoff_delay_ge_one _
        simp only [subprocess_failure_update]
        constructor
        · intro hcontra
          exact absurd hcontra (by simp)
        · intro hcontra
          exfalso
          have hpos : (0 : ℚ) < t + get_backoff_delay (s2.consecutive_errors + 1) := by
            linarith
          rw [hcontra] at hpos
          exact lt_irrefl 0 hpos
      · simp [subprocess_success_update]

/-- Witness for amended C8 at the initial state. -/
theorem sender_error_backoff_invariant_witness :
    initial_sender_state.consecutive_errors = 0 ↔ initial_sender_state.backoff_until = 0 :=
  sender_error_backoff_invariant cfgDefault initial_sender_state ReachableSender.init

/-- Counterexample to C9 as stated: on normal process exit the finally-block
cleanup runs its teardown after reading the flag without setting it, and the
atexit-registered guarded call that follows tears down a second time — two
shutdown invocations, two channel teardowns. -/
theorem shutdown_double_teardown_cex :
    (initiate_shutdown (normal_exit_cleanup shutdown_box_init)).teardowns = 2 ∧
    (normal_exit_cleanup shutdown_box_init).teardowns = 1 := by
  constructor <;> rfl

/-- Claim C9 (amended): any positive number of shutdown invocations routed
through the lock-protected single-assignment guard of initiate_shutdown
performs channel teardown exactly once, every call returning with the flag
set; only the unguarded normal-exit cleanup path can add a second teardown. -/
theorem initiate_shutdown_idempotent (n : ℕ) (h : 1 ≤ n) :
    (initiate_shutdown^[n] shutdown_box_init).teardowns = 1 ∧
    (initiate_shutdown^[n] shutdown_box_init).initiated = true := by
  induction n with
  | zero => exact absurd h (by norm_num)
  | succ n ih =>
      rcases Nat.eq_zero_or_pos n with hn | hn
      · subst hn
        constructor <;> rfl
      · obtain ⟨ih1, ih2⟩ := ih hn
        have hfix : initiate_shutdown (initiate_shutdown^[n] shutdown_box_init) =
            initiate_shutdown^[n] shutdown_box_init := by
          simp [initiate_shutdown, ih2]
        rw [Function.iterate_succ_apply', hfix]
        exact ⟨ih1, ih2⟩

/-- Witness for amended C9: two guarded invocations tear down exactly once. -/
theorem initiate_shutdown_idempotent_witness :
    (initiate_shutdown^[2] shutdown_box_init).teardowns = 1 ∧
    (initiate_shutdown^[2] shutdown_box_init).initiated = true :=
  initiate_shutdown_idempotent 2 (by norm_num)

/-- Claim C10: deduplication and the supersession check compare the raw color
strings passed to send_color, not normalised hue values: a send whose string
differs from last_color is never deduplicated, and a worker whose mailbox
holds a different spelling skips its commit — even though, for example, red
and its hex spelling both parse to hue 0. -/
theorem send_color_raw_string_compare :
    (∀ cfg env t s c1 c2, s.last_color = some c1 → c1 ≠ c2 →
      (send_color cfg env c2 t s).outcome ≠ .deduped) ∧
    color_to_hsv "red" = .ok (0, 255) ∧
    color_to_hsv "#ff0000" = .ok (0, 255) ∧
    ("red" : String) ≠ "#ff0000" ∧
    (∀ c1 c2 s, c1 ≠ c2 →
      (worker_step c2 { mailbox := some c1, phase := .before_check, sender := s }
        .check).phase = .finished) := by
  refine ⟨?_, rfl, ?_, by decide, ?_⟩
  · intro cfg env t s c1 c2 hlast hne
    apply send_color_outcome_not_deduped
    simp [hlast]
    exact fun hcontra => hne hcontra.symm
  · have h1 : color_to_hsv "#ff0000" = .ok (rgb_to_hue 255 0 0, 255) := rfl
    rw [h1, rgb_to_hue_red]
  · intro c1 c2 s hne
    have hm : ¬ (some c1 = some c2) := by
      simp
      exact hne
    simp [worker_step, hm]

/-- Witness for C10: after a successful send of red, the differently spelled
hex request for the same hue is not deduplicated. -/
theorem send_color_raw_string_compare_witness :
    (send_color cfgDefault envAllOk "#ff0000" 5
      { last_color := some "red", last_send_time := 0, consecutive_errors := 0,
        backoff_until := 0, pending_color := none }).outcome ≠ .deduped :=
  send_color_raw_string_compare.1 cfgDefault envAllOk 5 _ "red" "#ff0000" rfl (by decide)
